import Mathlib

/-!
Verification of the et-demands crop phenology / GDD engine.

Shallow embedding of `src/cropET/bin/compute_crop_gdd.py`,
`src/cropET/bin/crop_cycle.py` and the climate-normalization part of
`src/cropET/bin/et_cell.py`.  Real (float) arithmetic is modelled by `ℚ`,
Python lists / numpy arrays by `List`, and Python runtime errors by
`Except String`.
-/

/-- Crop parameter record (the fields of `crop` read by `compute_crop_gdd`). -/
structure Crop where
  class_number : ℕ
  curve_number : ℤ
  curve_name : String
  tbase : ℚ
  crop_gdd_trigger_doy : ℕ
  deriving DecidableEq

/-- Persistent per-(cell,crop) state `foo` (fields touched by
`compute_crop_gdd`). -/
structure Foo where
  etref_30 : ℚ
  cgdd : ℚ
  gdd : ℚ
  penalty : ℚ
  cgdd_penalty : ℚ
  lDoy : ℕ
  doy_start_cycle : ℕ
  real_start : Bool
  in_season : Bool
  deriving DecidableEq

/-- Per-day snapshot `foo_day` (fields read by `compute_crop_gdd`). -/
structure FooDay where
  sdays : ℕ
  doy : ℕ
  etref : ℚ
  tmax : ℚ
  tmin : ℚ
  tmean : ℚ
  snow_depth : ℚ
  deriving DecidableEq

/-- Python `'WINTER' in name`: substring test on the character list. -/
def containsWinter (name : String) : Bool :=
  name.toList.tails.any (fun t => "WINTER".toList.isPrefixOf t)

/-- `compute_crop_gdd.py` lines 13-25, core of the 30-day rolling
reference-ET average: given today's day index `sdays`, today's `etref`,
the current average `e30` and the 30-slot buffer `arr`, return the new
average and buffer.  For `sdays > 30` the buffer is shifted left one slot
(`arr[idx] = arr[idx+1]` for `idx = 0..28`, i.e. `arr.tail`), today's value
is appended in the last slot, and the lost oldest value `arr[0]` leaves the
average; otherwise today's value is stored in slot `sdays - 1` and the
average is rescaled. -/
def stageAe (sdays : ℕ) (etref e30 : ℚ) (arr : List ℚ) : ℚ × List ℚ :=
  if 30 < sdays then
    (e30 + (etref - arr.headI) / 30, arr.tail ++ [etref])
  else
    ((e30 * ((sdays : ℚ) - 1) + etref) / (sdays : ℚ), arr.set (sdays - 1) etref)

/-- Stage A of `compute_crop_gdd` acting on the full state. -/
def stageA (foo : Foo) (d : FooDay) (arr : List ℚ) : Foo × List ℚ :=
  let r := stageAe d.sdays d.etref foo.etref_30 arr
  ({ foo with etref_30 := r.1 }, r.2)

/-- `compute_crop_gdd.py` line 35: the winter test used by the season-reset
branch (`class_number in [13,14] or 'WINTER' in crop.curve_name`). -/
def isWinterB (crop : Crop) : Bool :=
  crop.class_number == 13 || crop.class_number == 14 ||
    containsWinter crop.curve_name

/-- `compute_crop_gdd.py` lines 77-78: the winter test used by the GDD
branch (`class_number in [13,14] or crop.curve_name == 'WINTER WHEAT'`). -/
def isWinterC (crop : Crop) : Bool :=
  crop.class_number == 13 || crop.class_number == 14 ||
    crop.curve_name == "WINTER WHEAT"

/-- `compute_crop_gdd.py` lines 35-51: season-reset detection.  Winter
crops reset when `lDoy < trigger <= doy`; all other crops reset when
`lDoy > trigger + 199` and `doy < trigger + 199`.  In both branches `lDoy`
is set to today's `doy` after the check. -/
def stageB (crop : Crop) (foo : Foo) (doy : ℕ) : Foo :=
  if isWinterB crop then
    if foo.lDoy < crop.crop_gdd_trigger_doy ∧ crop.crop_gdd_trigger_doy ≤ doy then
      { foo with cgdd := 0, doy_start_cycle := 0, real_start := false,
                 in_season := false, lDoy := doy }
    else
      { foo with lDoy := doy }
  else
    if crop.crop_gdd_trigger_doy + 199 < foo.lDoy ∧ doy < crop.crop_gdd_trigger_doy + 199 then
      { foo with cgdd := 0, doy_start_cycle := 0, real_start := false,
                 in_season := false, lDoy := doy }
    else
      { foo with lDoy := doy }

/-- `compute_crop_gdd.py` lines 80-86: the raw winter-grain daily GDD
before penalties (`0` if `tmin < -4`, else `tmean - tbase` when
`tmean > tbase`, else `0`). -/
def winterRawGdd (crop : Crop) (d : FooDay) : ℚ :=
  if d.tmin < -4 then 0
  else if crop.tbase < d.tmean then d.tmean - crop.tbase
  else 0

/-- `compute_crop_gdd.py` lines 80-106: winter-grain daily update.  The
pending `penalty` is subtracted from today's raw GDD and the result floored
at 0; the pending `cgdd_penalty` is subtracted together with the GDD
addition and the result floored at 0; both pending penalties are then reset
and re-scheduled from today's `tmin` / `snow_depth`. -/
def winterGrainUpdate (crop : Crop) (foo : Foo) (d : FooDay) : Foo :=
  let gdd1 := winterRawGdd crop d - foo.penalty
  let gdd2 := max gdd1 0
  let cgdd1 := max 0 (foo.cgdd + gdd2 - foo.cgdd_penalty)
  let penalty1 : ℚ := if d.tmin < -10 then 5 else 0
  let cgdd_penalty1 : ℚ :=
    if d.tmin < -25 ∧ d.snow_depth ≤ 0 then cgdd1 * (1/10) else 0
  { foo with gdd := gdd2, cgdd := cgdd1,
             penalty := penalty1, cgdd_penalty := cgdd_penalty1 }

/-- `compute_crop_gdd.py` lines 109-119: corn limit on `tmax` (first clamp
to 30 when `tmax > 30`, then overwrite with `-tbase` when `tmax < -tbase`). -/
def cornTmaxl (crop : Crop) (d : FooDay) : ℚ :=
  let t : ℚ := if 30 < d.tmax then 30 else d.tmax
  if d.tmax < -crop.tbase then -crop.tbase else t

/-- `compute_crop_gdd.py` lines 110-121: corn limit on `tmin` (clamp to 30
when `tmin > 30`, then overwrite with `-tbase` when `tmin < -tbase`). -/
def cornTminl (crop : Crop) (d : FooDay) : ℚ :=
  let t : ℚ := if 30 < d.tmin then 30 else d.tmin
  if d.tmin < -crop.tbase then -crop.tbase else t

/-- `compute_crop_gdd.py` line 122: `tmeanl = 0.5 * (tmaxl + tminl)`. -/
def cornTmeanl (crop : Crop) (d : FooDay) : ℚ :=
  (1/2) * (cornTmaxl crop d + cornTminl crop d)

/-- `compute_crop_gdd.py` lines 107-124: corn daily update,
`cgdd += tmeanl + tbase` (the negative `tbase` acting as the true offset). -/
def cornUpdate (crop : Crop) (foo : Foo) (d : FooDay) : Foo :=
  { foo with cgdd := foo.cgdd + cornTmeanl crop d + crop.tbase }

/-- `compute_crop_gdd.py` lines 125-128: generic daily update, only when
`tmean > tbase`. -/
def genericUpdate (crop : Crop) (foo : Foo) (d : FooDay) : Foo :=
  if crop.tbase < d.tmean then
    { foo with gdd := d.tmean - crop.tbase,
               cgdd := foo.cgdd + (d.tmean - crop.tbase) }
  else foo

/-- `compute_crop_gdd.py` lines 64-128: daily GDD/CGDD update, gated on
`curve_number > 0`, dispatching on winter grain / corn (`tbase < 0`) /
generic. -/
def stageC (crop : Crop) (foo : Foo) (d : FooDay) : Foo :=
  if 0 < crop.curve_number then
    if isWinterC crop then winterGrainUpdate crop foo d
    else if crop.tbase < 0 then cornUpdate crop foo d
    else genericUpdate crop foo d
  else foo

/-- The whole of `compute_crop_gdd` for one day: rolling reference-ET
average, season-reset detection, then the daily GDD/CGDD update.  Returns
the updated state together with the updated 30-slot buffer. -/
def compute_crop_gdd (crop : Crop) (foo : Foo) (d : FooDay) (arr : List ℚ) :
    Foo × List ℚ :=
  let rA := stageA foo d arr
  let fooB := stageB crop rA.1 d.doy
  (stageC crop fooB d, rA.2)

/-- Iterate stage A over a list of daily reference-ET values, `n` being the
day index (`sdays`) of the first listed day; mirrors the day loop of
`crop_day_loop` (`crop_cycle.py` line 157, `foo_day.sdays = i + 1`) feeding
consecutive days to `compute_crop_gdd`. -/
def runStageA : ℕ → List ℚ → ℚ × List ℚ → ℚ × List ℚ
  | _, [], s => s
  | n, x :: xs, s => runStageA (n + 1) xs (stageAe n x s.1 s.2)

/-- The last `n` entries of a list. -/
def lastN {α : Type} (n : ℕ) (l : List α) : List α :=
  l.drop (l.length - n)

/-- The season-reset condition of `stageB` as a standalone test on the
stored `lDoy` and today's `doy`. -/
def resetCond (crop : Crop) (l d : ℕ) : Bool :=
  if isWinterB crop then
    decide (l < crop.crop_gdd_trigger_doy) && decide (crop.crop_gdd_trigger_doy ≤ d)
  else
    decide (crop.crop_gdd_trigger_doy + 199 < l) && decide (d < crop.crop_gdd_trigger_doy + 199)

/-- Thread `stageB`'s `lDoy` bookkeeping through a day-of-year sequence,
recording for each day whether the season reset fired; also returns the
final `lDoy`. -/
def resetSeq (crop : Crop) : ℕ → List ℕ → List Bool × ℕ
  | l, [] => ([], l)
  | l, d :: ds =>
    let r := resetSeq crop d ds
    (resetCond crop l d :: r.1, r.2)

/-- The day-of-year values of one simulated calendar year of `L` days. -/
def yearDoys (L : ℕ) : List ℕ := List.range' 1 L

/-- The day-of-year sequence of a multi-year run with the given year
lengths. -/
def yearsDoys (ls : List ℕ) : List ℕ := (ls.map yearDoys).flatten

/-- Number of season resets fired over a multi-year run that starts with
`lDoy = l`. -/
def countResets (crop : Crop) (l : ℕ) (ls : List ℕ) : ℕ :=
  (resetSeq crop l (yearsDoys ls)).1.count true

/-- numpy's truth value of a boolean array: defined for at most one
element, a `ValueError` otherwise. -/
def arrayBool (l : List Bool) : Except String Bool :=
  match l with
  | [] => .ok false
  | [x] => .ok x
  | _ => .error "ValueError: The truth value of an array with more than one element is ambiguous."

/-- Python's `and` applied to two numpy boolean arrays: the left operand is
coerced to a single truth value (an error for a multi-element array); if it
is truthy the right operand is returned, otherwise the left one. -/
def pyAnd (a b : List Bool) : Except String (List Bool) :=
  match arrayBool a with
  | .error e => .error e
  | .ok true => .ok b
  | .ok false => .ok a

/-- `crop_cycle.py` lines 111-113: the valid-date mask
`(Dates >= start_dt) and (Dates <= end_dt)`, with dates modelled as
integers and the whole-array comparisons elementwise. -/
def dateMask (dates : List ℤ) (start_dt end_dt : ℤ) : Except String (List Bool) :=
  pyAnd (dates.map (fun dt => decide (start_dt ≤ dt)))
        (dates.map (fun dt => decide (dt ≤ end_dt)))

/-- The elementwise conjunction the window filter intends. -/
def elementwiseMask (dates : List ℤ) (start_dt end_dt : ℤ) : List Bool :=
  dates.map (fun dt => decide (start_dt ≤ dt) && decide (dt ≤ end_dt))

/-- One row of the climate table used by the snow-depth loop of
`ETCell.process_climate` (`et_cell.py` lines 583-594). -/
structure SnowRow where
  snow : ℚ
  snow_depth : ℚ
  tmax : ℚ
  deriving DecidableEq

/-- One iteration of the snow-depth loop body (`et_cell.py` lines 586-594),
with the running accumulation `snow_accum` modelled as `Option ℚ`: `none`
when the Python local variable is still unbound, in which case
`snow_accum += ...` raises. -/
def snowStep (acc : Option ℚ) (r : SnowRow) : Except String (ℚ × ℚ) :=
  match acc with
  | none => .error "UnboundLocalError: local variable snow_accum referenced before assignment"
  | some a =>
    let accum1 := a + r.snow * (1/2)
    let melt := max (4 * r.tmax) 0
    let accum2 := max (accum1 - melt) 0
    .ok (accum2, min r.snow_depth accum2)

/-- The snow-depth loop over the record, returning the estimated
`snow_depth` series. -/
def snowLoop : Option ℚ → List SnowRow → Except String (List ℚ)
  | _, [] => .ok []
  | acc, r :: rs =>
    match snowStep acc r with
    | .error e => .error e
    | .ok s =>
      match snowLoop (some s.1) rs with
      | .error e => .error e
      | .ok ds => .ok (s.2 :: ds)

/-- `et_cell.py` lines 582-594: the snow-depth estimate runs only when any
snowfall is present in the record; the accumulator starts unbound. -/
def process_climate_snow (rows : List SnowRow) : Except String (List ℚ) :=
  if rows.any (fun r => decide (r.snow ≠ 0)) then snowLoop none rows
  else .ok (rows.map (fun r => r.snow_depth))

/-- One row of the climate table used by the long-term normals
(`et_cell.py` lines 543-575): calendar year, day of year and the adjusted
daily extremes. -/
structure ClimRow where
  year : ℤ
  doy : ℕ
  tmax : ℚ
  tmin : ℚ
  deriving DecidableEq

/-- `et_cell.py` line 544: `tmean = mean(tmax, tmin)`. -/
def tmeanOf (r : ClimRow) : ℚ := (r.tmax + r.tmin) / 2

/-- `et_cell.py` lines 545-546: trailing 30-day mean of `tmean` with
`min_periods=1` — at position `i` the mean of the last at-most-30 entries
of the first `i+1`. -/
def t30Series (rows : List ClimRow) : List ℚ :=
  (List.range rows.length).map (fun i =>
    let w := lastN 30 ((rows.take (i + 1)).map tmeanOf)
    w.sum / (w.length : ℚ))

/-- `et_cell.py` lines 552-553: daily base-0 GDD, `tmean` zeroed when
`tmean <= 0`. -/
def basePos (t : ℚ) : ℚ := if t ≤ 0 then 0 else t

/-- `et_cell.py` lines 562-564: cumulative base-0 GDD within each calendar
year — at position `i` the sum of the daily GDD over the earlier positions
belonging to the same year. -/
def cgddSeries (rows : List ClimRow) : List ℚ :=
  (List.range rows.length).map (fun i =>
    (((rows.take (i + 1)).filter
        (fun r => r.year == (rows.getD i ⟨0, 0, 0, 0⟩).year)).map
      (fun r => basePos (tmeanOf r))).sum)

/-- pandas `groupby('doy').mean()` of a paired (doy, value) series: the
mean of the values carrying day-of-year `d`. -/
def doyMean (pairs : List (ℕ × ℚ)) (d : ℕ) : ℚ :=
  let v := (pairs.filter (fun p => p.1 == d)).map (fun p => p.2)
  v.sum / (v.length : ℚ)

/-- Insert into a sorted list of naturals. -/
def insertSorted (d : ℕ) : List ℕ → List ℕ
  | [] => [d]
  | x :: xs => if d ≤ x then d :: x :: xs else x :: insertSorted d xs

/-- Sort a list of naturals (pandas groupby sorts its keys). -/
def sortNat (l : List ℕ) : List ℕ := l.foldr insertSorted []

/-- The sorted distinct day-of-year keys of the record (the index of the
pandas `groupby('doy')` result). -/
def uniqueDoys (rows : List ClimRow) : List ℕ :=
  sortNat ((rows.map (fun r => r.doy)).dedup)

/-- (doy, t30) pairs of the record. -/
def t30Pairs (rows : List ClimRow) : List (ℕ × ℚ) :=
  (rows.map (fun r => r.doy)).zip (t30Series rows)

/-- (doy, cumulative GDD) pairs of the record. -/
def cgddPairs (rows : List ClimRow) : List (ℕ × ℚ) :=
  (rows.map (fun r => r.doy)).zip (cgddSeries rows)

/-- `et_cell.py` lines 549 and 574: the long-term 30-day-mean-temperature
normal table — `groupby('doy').mean()['t30']` with the first computed entry
duplicated into index 0 (`np.insert(arr, 0, arr[0])`). -/
def main_t30_lt (rows : List ClimRow) : List ℚ :=
  let m := (uniqueDoys rows).map (doyMean (t30Pairs rows))
  m.headI :: m

/-- `et_cell.py` lines 570 and 575: the long-term cumulative-GDD normal
table — `groupby('doy').mean()['cgdd']` with the first computed entry
duplicated into index 0. -/
def main_cgdd_0_lt (rows : List ClimRow) : List ℚ :=
  let m := (uniqueDoys rows).map (doyMean (cgddPairs rows))
  m.headI :: m

/-- The weather fields of `foo_day` involved in the relative-humidity
computation of `crop_day_loop` (`crop_cycle.py` lines 163-190). -/
structure DayWx where
  tdew : ℚ
  tmax_orig : ℚ
  rh_min : ℚ
  deriving DecidableEq

/-- `crop_cycle.py` lines 183-190: compute `rh_min` from dewpoint and the
original (unadjusted) maximum temperature via the saturation vapor pressure
function `es`, with the fixed fallback 30.0 when either input is below the
-90 sentinel. -/
def set_rh_min (es : ℚ → ℚ) (d : DayWx) : DayWx :=
  if d.tdew < -90 ∨ d.tmax_orig < -90 then { d with rh_min := 30 }
  else { d with rh_min := min (es d.tdew / es d.tmax_orig * 100) 100 }

/-- A concrete stand-in saturation vapor pressure function (only used to
instantiate witnesses; `util.aFNEs` itself is outside the embedded
sources). -/
def esLin (t : ℚ) : ℚ := t + 200

/-- Two consecutive days of `compute_crop_gdd` (days D and D+1 of one
crop run): the pair of crop states after day D and after day D+1. -/
def twoDayState (crop : Crop) (foo : Foo) (d1 d2 : FooDay) (arr : List ℚ) :
    Foo × Foo :=
  ((compute_crop_gdd crop foo d1 arr).1,
   (compute_crop_gdd crop (compute_crop_gdd crop foo d1 arr).1 d2
      (compute_crop_gdd crop foo d1 arr).2).1)

/-! ## Helper lemmas -/

theorem lastN_cons {α : Type} (n : ℕ) (a : α) (l : List α) (h : n ≤ l.length) :
    lastN n (a :: l) = lastN n l := by
  unfold lastN
  have hl : (a :: l).length - n = (l.length - n) + 1 := by
    simp only [List.length_cons]
    omega
  rw [hl, List.drop_succ_cons]

theorem lastN_full {α : Type} (n : ℕ) (l : List α) (h : l.length = n) :
    lastN n l = l := by
  unfold lastN
  rw [h, Nat.sub_self, List.drop_zero]

theorem runStageA_append (a b : List ℚ) : ∀ (n : ℕ) (s : ℚ × List ℚ),
    runStageA n (a ++ b) s = runStageA (n + a.length) b (runStageA n a s) := by
  induction a with
  | nil => intro n s; simp [runStageA]
  | cons x xs ih =>
    intro n s
    simp only [List.cons_append, runStageA, List.length_cons, List.append_eq]
    rw [ih]
    have h : n + 1 + xs.length = n + (xs.length + 1) := by omega
    rw [h]

theorem runStageA_phase1 : ∀ (ys : List ℚ) (j : ℕ) (pre arr0 : List ℚ),
    1 ≤ j → pre.length = j → arr0.length = 30 → j + ys.length ≤ 30 →
    runStageA (j + 1) ys (pre.sum / (j : ℚ), pre ++ arr0.drop j) =
      (((pre ++ ys).sum) / ((j + ys.length : ℕ) : ℚ),
       (pre ++ ys) ++ arr0.drop (j + ys.length)) := by
  intro ys
  induction ys with
  | nil =>
    intro j pre arr0 _ _ _ _
    simp [runStageA]
  | cons y ys ih =>
    intro j pre arr0 h1 h2 h3 h4
    simp only [List.length_cons] at h4
    have hj30 : ¬ 30 < j + 1 := by omega
    have hjQ : ((j : ℚ)) ≠ 0 := by exact_mod_cast Nat.one_le_iff_ne_zero.mp h1
    have hlen : (arr0.drop j).length = 30 - j := by simp [h3]
    have hne : arr0.drop j ≠ [] := by
      intro hnil
      rw [hnil] at hlen
      simp at hlen
      omega
    obtain ⟨z, rest, hzr⟩ := List.exists_cons_of_ne_nil hne
    have hrest : rest = arr0.drop (j + 1) := by
      have htl := List.tail_drop arr0 j
      rw [hzr] at htl
      simpa using htl
    simp only [runStageA]
    have hstep : stageAe (j + 1) y (pre.sum / (j : ℚ)) (pre ++ arr0.drop j) =
        ((pre ++ [y]).sum / ((j + 1 : ℕ) : ℚ), (pre ++ [y]) ++ arr0.drop (j + 1)) := by
      unfold stageAe
      rw [if_neg hj30]
      simp only [Prod.mk.injEq]
      constructor
      · have hc : (((j + 1 : ℕ) : ℚ) - 1) = (j : ℚ) := by push_cast; ring
        rw [hc, div_mul_cancel₀ _ hjQ]
        simp [List.sum_append]
      · have hidx : (j + 1) - 1 = j := rfl
        rw [hidx, List.set_append_right _ _ (by omega : pre.length ≤ j), h2,
            Nat.sub_self, hzr, List.set_cons_zero, hrest]
        simp
    rw [hstep]
    have h2' : (pre ++ [y]).length = j + 1 := by simp [h2]
    have h4' : (j + 1) + ys.length ≤ 30 := by omega
    rw [ih (j + 1) (pre ++ [y]) arr0 (by omega) h2' h3 h4']
    simp only [List.length_cons]
    have hl : pre ++ y :: ys = (pre ++ [y]) ++ ys := by simp
    have hnat : j + 1 + ys.length = j + (ys.length + 1) := by omega
    rw [hl, ← hnat]

theorem runStageA_phase2 : ∀ (ys arr : List ℚ) (m : ℕ), 30 < m → arr.length = 30 →
    runStageA m ys (arr.sum / 30, arr) =
      ((lastN 30 (arr ++ ys)).sum / 30, lastN 30 (arr ++ ys)) := by
  intro ys
  induction ys with
  | nil =>
    intro arr m _ ha
    simp [runStageA, lastN_full 30 arr ha]
  | cons y ys ih =>
    intro arr m hm ha
    cases arr with
    | nil => simp at ha
    | cons h t =>
      have ht : t.length = 29 := by simpa using ha
      simp only [runStageA]
      have hstep : stageAe m y ((h :: t).sum / 30) (h :: t) =
          ((t ++ [y]).sum / 30, t ++ [y]) := by
        unfold stageAe
        rw [if_pos hm]
        simp only [Prod.mk.injEq, List.headI, List.tail_cons, List.sum_cons,
                   List.sum_append, List.sum_cons, List.sum_nil]
        constructor
        · ring
        · trivial
      rw [hstep]
      rw [ih (t ++ [y]) (m + 1) (by omega) (by simp [ht])]
      have h1 : (h :: t) ++ y :: ys = h :: (t ++ y :: ys) := rfl
      have h2 : (t ++ [y]) ++ ys = t ++ y :: ys := by simp
      rw [h1, h2, lastN_cons 30 h (t ++ y :: ys)
            (by simp only [List.length_append, List.length_cons, ht]; omega)]

/-- C1: for every (cell, crop) run, the rolling reference-ET average
follows the stated recurrence — with `n` the day index since crop-run
start, for `n <= 30` the average becomes `(etref_30*(n-1) + etref)/n` and
today's value is stored in ring-buffer slot `n-1`, while for `n > 30` the
buffer is shifted left, today's value is appended in the last slot, and the
average is incremented by `(etref - lost)/30` with `lost` the dropped
oldest slot — and consequently after day 30 of a run `etref_30` equals the
exact mean of the 30 most recent reference-ET values (and the buffer holds
exactly those 30 values), for any initial average and any initial 30-slot
buffer contents. -/
theorem C1_etref30_rolling_mean :
    (∀ (n : ℕ) (x e : ℚ) (arr : List ℚ), n ≤ 30 →
        stageAe n x e arr = ((e * ((n : ℚ) - 1) + x) / (n : ℚ), arr.set (n - 1) x))
    ∧ (∀ (n : ℕ) (x e : ℚ) (arr : List ℚ), 30 < n →
        stageAe n x e arr = (e + (x - arr.headI) / 30, arr.tail ++ [x]))
    ∧ (∀ (xs : List ℚ) (e0 : ℚ) (arr0 : List ℚ), arr0.length = 30 → 30 ≤ xs.length →
        runStageA 1 xs (e0, arr0) = ((lastN 30 xs).sum / 30, lastN 30 xs)) := by
  refine ⟨?_, ?_, ?_⟩
  · intro n x e arr hn
    unfold stageAe
    rw [if_neg (by omega)]
  · intro n x e arr hn
    unfold stageAe
    rw [if_pos hn]
  · intro xs e0 arr0 h30 hlen
    have hsplit : xs.take 30 ++ xs.drop 30 = xs := List.take_append_drop 30 xs
    have htk : (xs.take 30).length = 30 := by
      rw [List.length_take]
      omega
    conv_lhs => rw [← hsplit]
    rw [runStageA_append (xs.take 30) (xs.drop 30) 1 (e0, arr0), htk]
    cases hc : xs.take 30 with
    | nil => rw [hc] at htk; simp at htk
    | cons x rest =>
      rw [hc] at htk
      have hr : rest.length = 29 := by simpa using htk
      have hstep1 : stageAe 1 x e0 arr0 = ([x].sum / ((1 : ℕ) : ℚ), [x] ++ arr0.drop 1) := by
        unfold stageAe
        rw [if_neg (by omega)]
        simp only [Prod.mk.injEq]
        constructor
        · norm_num
        · cases arr0 with
          | nil => simp at h30
          | cons a t0 => simp
      have hphase1 := runStageA_phase1 rest 1 [x] arr0 le_rfl rfl h30 (by omega)
      have hinner : runStageA 1 (x :: rest) (e0, arr0) =
          ((x :: rest).sum / 30, x :: rest) := by
        simp only [runStageA]
        rw [hstep1, hphase1]
        have hd : arr0.drop (1 + rest.length) = [] := by
          have h130 : 1 + rest.length = arr0.length := by omega
          rw [h130]
          exact List.drop_length arr0
        rw [hd]
        simp only [List.append_nil, List.singleton_append, hr]
        norm_num
      rw [hinner]
      rw [runStageA_phase2 (xs.drop 30) (x :: rest) 31 (by omega) (by simpa using htk)]
      rw [← hc, hsplit]

/-- Witness for C1 at a concrete run: 31 days of constant reference ET 5
starting from a zeroed state. -/
theorem C1_etref30_rolling_mean_witness :
    runStageA 1 (List.replicate 31 5) (0, List.replicate 30 0) =
      ((lastN 30 (List.replicate 31 5)).sum / 30, lastN 30 (List.replicate 31 5)) :=
  C1_etref30_rolling_mean.2.2 (List.replicate 31 5) 0 (List.replicate 30 0)
    (by decide) (by decide)

/-! ## Stage projection lemmas -/

theorem stageA_fst (foo : Foo) (d : FooDay) (arr : List ℚ) :
    (stageA foo d arr).1 =
      { foo with etref_30 := (stageAe d.sdays d.etref foo.etref_30 arr).1 } := rfl

theorem compute_crop_gdd_fst (crop : Crop) (foo : Foo) (d : FooDay) (arr : List ℚ) :
    (compute_crop_gdd crop foo d arr).1 =
      stageC crop (stageB crop (stageA foo d arr).1 d.doy) d := rfl

theorem stageB_gdd (crop : Crop) (foo : Foo) (doy : ℕ) :
    (stageB crop foo doy).gdd = foo.gdd := by
  unfold stageB
  split_ifs <;> rfl

theorem stageB_penalty (crop : Crop) (foo : Foo) (doy : ℕ) :
    (stageB crop foo doy).penalty = foo.penalty := by
  unfold stageB
  split_ifs <;> rfl

theorem stageB_cgdd_penalty (crop : Crop) (foo : Foo) (doy : ℕ) :
    (stageB crop foo doy).cgdd_penalty = foo.cgdd_penalty := by
  unfold stageB
  split_ifs <;> rfl

theorem stageB_lDoy (crop : Crop) (foo : Foo) (doy : ℕ) :
    (stageB crop foo doy).lDoy = doy := by
  unfold stageB
  split_ifs <;> rfl

theorem stageB_cgdd_cases (crop : Crop) (foo : Foo) (doy : ℕ) :
    (stageB crop foo doy).cgdd = 0 ∨ (stageB crop foo doy).cgdd = foo.cgdd := by
  unfold stageB
  split_ifs
  · exact Or.inl rfl
  · exact Or.inr rfl
  · exact Or.inl rfl
  · exact Or.inr rfl

theorem stageB_nofire_winter (crop : Crop) (foo : Foo) (doy : ℕ)
    (hw : isWinterB crop = true)
    (hn : ¬ (foo.lDoy < crop.crop_gdd_trigger_doy ∧ crop.crop_gdd_trigger_doy ≤ doy)) :
    stageB crop foo doy = { foo with lDoy := doy } := by
  unfold stageB
  rw [hw]
  simp only [if_true]
  rw [if_neg hn]

theorem stageC_winter (crop : Crop) (foo : Foo) (d : FooDay)
    (hwc : isWinterC crop = true) (hcv : 0 < crop.curve_number) :
    stageC crop foo d = winterGrainUpdate crop foo d := by
  unfold stageC
  rw [if_pos hcv, hwc]
  simp only [if_true]

theorem wgu_gdd (crop : Crop) (foo : Foo) (d : FooDay) :
    (winterGrainUpdate crop foo d).gdd = max (winterRawGdd crop d - foo.penalty) 0 := rfl

theorem wgu_cgdd (crop : Crop) (foo : Foo) (d : FooDay) :
    (winterGrainUpdate crop foo d).cgdd =
      max 0 (foo.cgdd + (winterGrainUpdate crop foo d).gdd - foo.cgdd_penalty) := rfl

theorem wgu_penalty (crop : Crop) (foo : Foo) (d : FooDay) :
    (winterGrainUpdate crop foo d).penalty = if d.tmin < -10 then (5 : ℚ) else 0 := rfl

theorem wgu_cgdd_penalty (crop : Crop) (foo : Foo) (d : FooDay) :
    (winterGrainUpdate crop foo d).cgdd_penalty =
      if d.tmin < -25 ∧ d.snow_depth ≤ 0
      then (winterGrainUpdate crop foo d).cgdd * (1/10) else 0 := rfl

theorem wgu_lDoy (crop : Crop) (foo : Foo) (d : FooDay) :
    (winterGrainUpdate crop foo d).lDoy = foo.lDoy := rfl

theorem isWinterB_of_class (crop : Crop)
    (h : crop.class_number = 13 ∨ crop.class_number = 14) :
    isWinterB crop = true := by
  unfold isWinterB
  rcases h with h | h <;> simp [h]

theorem isWinterC_of_class (crop : Crop)
    (h : crop.class_number = 13 ∨ crop.class_number = 14) :
    isWinterC crop = true := by
  unfold isWinterC
  rcases h with h | h <;> simp [h]

/-! ## C2 -/

/-- C2 counterexample: for a standard (non-winter) crop with trigger DOY 1,
on a day whose day-of-year is exactly trigger+199 = 200 with stored
lDoy = 201, the claimed condition lDoy > trigger+199 >= today_doy holds,
yet the code performs no reset: cgdd stays 7 and in_season stays true
(the code requires today_doy strictly below trigger+199). -/
theorem C2_counterexample :
    (stageB ⟨7, 7, "CORN", 18, 1⟩ ⟨0, 7, 0, 0, 0, 201, 0, true, true⟩ 200).cgdd = 7 ∧
    (stageB ⟨7, 7, "CORN", 18, 1⟩ ⟨0, 7, 0, 0, 0, 201, 0, true, true⟩ 200).in_season = true ∧
    1 + 199 < 201 ∧ 200 ≤ 1 + 199 := by
  refine ⟨?_, ?_, by omega, by omega⟩ <;> decide

/-- C2 (amended): for a standard (non-winter) crop the season reset
(observable as cgdd zeroed and in_season cleared) fires exactly when
lDoy > trigger_doy + 199 AND today_doy < trigger_doy + 199 (strict, so a
day with day-of-year equal to trigger_doy + 199 does not trigger it); and
in both the winter and standard branches lDoy is set to today's doy
unconditionally after the check. -/
theorem C2_standard_reset_strict :
    (∀ (crop : Crop) (foo : Foo) (doy : ℕ), isWinterB crop = false → 0 < foo.cgdd →
      (((stageB crop foo doy).cgdd = 0 ∧ (stageB crop foo doy).in_season = false) ↔
        (crop.crop_gdd_trigger_doy + 199 < foo.lDoy ∧
          doy < crop.crop_gdd_trigger_doy + 199)))
    ∧ (∀ (crop : Crop) (foo : Foo) (doy : ℕ), (stageB crop foo doy).lDoy = doy) := by
  constructor
  · intro crop foo doy hw hc
    unfold stageB
    rw [hw]
    simp only [Bool.false_eq_true, if_false]
    by_cases h : crop.crop_gdd_trigger_doy + 199 < foo.lDoy ∧
        doy < crop.crop_gdd_trigger_doy + 199
    · rw [if_pos h]
      simp [h]
    · rw [if_neg h]
      constructor
      · intro hcg
        exact absurd hcg.1 (ne_of_gt hc)
      · intro hh
        exact absurd hh h
  · intro crop foo doy
    exact stageB_lDoy crop foo doy

/-- Witness for C2 at a concrete standard crop (trigger 1, lDoy 250,
doy 30): both reset observables fire, matching the strict condition. -/
theorem C2_standard_reset_strict_witness :
    ((stageB ⟨7, 7, "CORN", 18, 1⟩ ⟨0, 7, 0, 0, 0, 250, 0, true, true⟩ 30).cgdd = 0 ∧
     (stageB ⟨7, 7, "CORN", 18, 1⟩ ⟨0, 7, 0, 0, 0, 250, 0, true, true⟩ 30).in_season = false) ↔
      (1 + 199 < 250 ∧ 30 < 1 + 199) :=
  C2_standard_reset_strict.1 ⟨7, 7, "CORN", 18, 1⟩ ⟨0, 7, 0, 0, 0, 250, 0, true, true⟩ 30
    (by decide) (by norm_num)

theorem stageB_nofire_std (crop : Crop) (foo : Foo) (doy : ℕ)
    (hw : isWinterB crop = false)
    (hn : ¬ (crop.crop_gdd_trigger_doy + 199 < foo.lDoy ∧
      doy < crop.crop_gdd_trigger_doy + 199)) :
    stageB crop foo doy = { foo with lDoy := doy } := by
  unfold stageB
  rw [hw]
  simp only [Bool.false_eq_true, if_false]
  rw [if_neg hn]

theorem stageC_corn (crop : Crop) (foo : Foo) (d : FooDay)
    (hcv : 0 < crop.curve_number) (hwc : isWinterC crop = false)
    (hb : crop.tbase < 0) :
    stageC crop foo d = cornUpdate crop foo d := by
  unfold stageC
  rw [if_pos hcv, hwc]
  simp only [Bool.false_eq_true, if_false]
  rw [if_pos hb]

/-! ## C3 -/

/-- C3 counterexample: at tmax = 35, tmin = -5, tbase = -8 the code clamps
tminl UP to -tbase = 8 (line 120 fires because -5 < 8), so tmeanl = 19 and
the cgdd increment is 19 + (-8) = 11, not the claimed 4.5. -/
theorem C3_counterexample :
    (compute_crop_gdd ⟨7, 7, "CORN", -8, 1⟩ ⟨0, 0, 0, 0, 0, 5, 0, true, true⟩
        ⟨5, 6, 0, 35, -5, 15, 0⟩ (List.replicate 30 0)).1.cgdd = 11 ∧
    ((11 : ℚ) ≠ 9 / 2) := by
  constructor
  · rw [compute_crop_gdd_fst]
    rw [stageB_nofire_std _ _ _ (by decide) (by decide)]
    rw [stageC_corn _ _ _ (by decide) (by decide) (by decide)]
    simp only [cornUpdate, cornTmeanl, cornTmaxl, cornTminl, stageA, stageAe]
    norm_num
  · norm_num

/-- C3 (amended): for the corn policy on tmax = 35, tmin = -5, tbase = -8,
the daily update clamps tmaxl to 30, clamps tminl UP to -tbase = 8 (tminl
is not left at -5: the lower clamp at -tbase applies since -5 < 8),
yielding tmeanl = 19 and a cgdd increment of exactly 19 + (-8) = 11. -/
theorem C3_corn_clamp (crop : Crop) (foo : Foo) (d : FooDay)
    (hb : crop.tbase = -8) (hmax : d.tmax = 35) (hmin : d.tmin = -5) :
    cornTmaxl crop d = 30 ∧ cornTminl crop d = 8 ∧ cornTmeanl crop d = 19 ∧
    (cornUpdate crop foo d).cgdd = foo.cgdd + 11 := by
  have h1 : cornTmaxl crop d = 30 := by
    unfold cornTmaxl
    rw [hmax, hb]
    norm_num
  have h2 : cornTminl crop d = 8 := by
    unfold cornTminl
    rw [hmin, hb]
    norm_num
  have h3 : cornTmeanl crop d = 19 := by
    unfold cornTmeanl
    rw [h1, h2]
    norm_num
  refine ⟨h1, h2, h3, ?_⟩
  show foo.cgdd + cornTmeanl crop d + crop.tbase = foo.cgdd + 11
  rw [h3, hb]
  ring

/-- Witness for C3 at the concrete corn crop and day of the claim. -/
theorem C3_corn_clamp_witness :
    cornTmaxl ⟨7, 7, "CORN", -8, 1⟩ ⟨5, 6, 0, 35, -5, 15, 0⟩ = 30 ∧
    cornTminl ⟨7, 7, "CORN", -8, 1⟩ ⟨5, 6, 0, 35, -5, 15, 0⟩ = 8 ∧
    cornTmeanl ⟨7, 7, "CORN", -8, 1⟩ ⟨5, 6, 0, 35, -5, 15, 0⟩ = 19 ∧
    (cornUpdate ⟨7, 7, "CORN", -8, 1⟩ ⟨0, 2, 0, 0, 0, 5, 0, true, true⟩
        ⟨5, 6, 0, 35, -5, 15, 0⟩).cgdd = 2 + 11 :=
  C3_corn_clamp ⟨7, 7, "CORN", -8, 1⟩ ⟨0, 2, 0, 0, 0, 5, 0, true, true⟩
    ⟨5, 6, 0, 35, -5, 15, 0⟩ rfl rfl rfl

/-! ## C4 -/

theorem cornTmaxl_ge (crop : Crop) (d : FooDay) (h30 : -crop.tbase ≤ 30) :
    -crop.tbase ≤ cornTmaxl crop d := by
  simp only [cornTmaxl]
  split_ifs <;> linarith

theorem cornTminl_ge (crop : Crop) (d : FooDay) (h30 : -crop.tbase ≤ 30) :
    -crop.tbase ≤ cornTminl crop d := by
  simp only [cornTminl]
  split_ifs <;> linarith

theorem stageC_nonneg (crop : Crop) (foo : Foo) (d : FooDay)
    (hc : 0 ≤ foo.cgdd) (hg : 0 ≤ foo.gdd)
    (hcorn : crop.tbase < 0 → -crop.tbase ≤ 30) :
    0 ≤ (stageC crop foo d).cgdd ∧ 0 ≤ (stageC crop foo d).gdd := by
  unfold stageC
  split_ifs with h1 h2 h3
  · constructor
    · exact le_max_left 0 _
    · exact le_max_right _ 0
  · constructor
    · show 0 ≤ foo.cgdd + cornTmeanl crop d + crop.tbase
      have hx := cornTmaxl_ge crop d (hcorn h3)
      have hn := cornTminl_ge crop d (hcorn h3)
      have hm : -crop.tbase ≤ cornTmeanl crop d := by
        unfold cornTmeanl
        linarith
      linarith
    · exact hg
  · unfold genericUpdate
    split_ifs with h4
    · constructor
      · show 0 ≤ foo.cgdd + (d.tmean - crop.tbase)
        linarith
      · show 0 ≤ d.tmean - crop.tbase
        linarith
    · exact ⟨hc, hg⟩
  · exact ⟨hc, hg⟩

/-- C4 counterexample: for a corn-policy crop whose sentinel base is
stronger than the 30-degree cap (tbase = -40), a hot day (tmax = tmin = 50)
gives tmaxl = tminl = 30 (the -tbase overwrite tests the ORIGINAL tmax/tmin,
which are not below 40), so the cgdd increment is 30 - 40 = -10 and
cgdd = 5 becomes -5 < 0: the corn branch has no floor at zero. -/
theorem C4_counterexample :
    (compute_crop_gdd ⟨7, 7, "CORN", -40, 1⟩ ⟨0, 5, 0, 0, 0, 5, 0, true, true⟩
        ⟨5, 6, 0, 50, 50, 50, 0⟩ (List.replicate 30 0)).1.cgdd < 0 := by
  rw [compute_crop_gdd_fst]
  rw [stageB_nofire_std _ _ _ (by decide) (by decide)]
  rw [stageC_corn _ _ _ (by decide) (by decide) (by decide)]
  simp only [cornUpdate, cornTmeanl, cornTmaxl, cornTminl, stageA, stageAe]
  norm_num

/-- C4 (amended): after each day's GDD/CGDD update both cgdd >= 0 and
gdd >= 0, provided they were nonnegative before the update and, for a
corn-policy crop (tbase < 0), the true base -tbase does not exceed the
30-degree cap (true of the real corn parameterization: the 86-50 method
has -tbase = 10). -/
theorem C4_gdd_cgdd_nonneg (crop : Crop) (foo : Foo) (d : FooDay) (arr : List ℚ)
    (hc : 0 ≤ foo.cgdd) (hg : 0 ≤ foo.gdd)
    (hcorn : crop.tbase < 0 → -crop.tbase ≤ 30) :
    0 ≤ (compute_crop_gdd crop foo d arr).1.cgdd ∧
    0 ≤ (compute_crop_gdd crop foo d arr).1.gdd := by
  rw [compute_crop_gdd_fst]
  have hA1 : (stageA foo d arr).1.cgdd = foo.cgdd := rfl
  have hA2 : (stageA foo d arr).1.gdd = foo.gdd := rfl
  have hB0 : 0 ≤ (stageB crop (stageA foo d arr).1 d.doy).cgdd := by
    rcases stageB_cgdd_cases crop (stageA foo d arr).1 d.doy with h | h
    · rw [h]
    · rw [h, hA1]
      exact hc
  have hB1 : 0 ≤ (stageB crop (stageA foo d arr).1 d.doy).gdd := by
    rw [stageB_gdd, hA2]
    exact hg
  exact stageC_nonneg crop (stageB crop (stageA foo d arr).1 d.doy) d hB0 hB1 hcorn

/-- Witness for C4 at a concrete generic crop and day. -/
theorem C4_gdd_cgdd_nonneg_witness :
    0 ≤ (compute_crop_gdd ⟨3, 3, "ALFALFA", 5, 1⟩ ⟨0, 0, 0, 0, 0, 5, 0, true, true⟩
          ⟨5, 6, 0, 20, 10, 15, 0⟩ (List.replicate 30 0)).1.cgdd ∧
    0 ≤ (compute_crop_gdd ⟨3, 3, "ALFALFA", 5, 1⟩ ⟨0, 0, 0, 0, 0, 5, 0, true, true⟩
          ⟨5, 6, 0, 20, 10, 15, 0⟩ (List.replicate 30 0)).1.gdd :=
  C4_gdd_cgdd_nonneg ⟨3, 3, "ALFALFA", 5, 1⟩ ⟨0, 0, 0, 0, 0, 5, 0, true, true⟩
    ⟨5, 6, 0, 20, 10, 15, 0⟩ (List.replicate 30 0) le_rfl le_rfl
    (by intro h; norm_num at h)

/-! ## C5 -/

/-- C5: for winter-grain crops (class 13/14) over two consecutive processed
days D, D+1 with no season reset between them: the penalty scheduled on day
D is 5 if tmin < -10 (else 0) and is subtracted from day D+1's raw GDD
before flooring at 0; the cgdd penalty scheduled on day D is 0.10 times the
cgdd current at the end of day D when tmin < -25 and snow_depth <= 0 (else
0) and is subtracted (together with the new gdd) from cgdd before flooring
at 0 on day D+1; day D+1 re-schedules the penalty from its own tmin only
(i.e. day D's penalties are cleared); and in particular cgdd = 100,
tmin = -26, snow_depth = 0 on day D makes day D+1's cgdd exactly
(100 - 10) + new gdd. -/
theorem C5_winter_penalty_deferred (crop : Crop) (foo : Foo) (d1 d2 : FooDay)
    (arr : List ℚ)
    (hcls : crop.class_number = 13 ∨ crop.class_number = 14)
    (hcv : 0 < crop.curve_number)
    (hnf : ¬ (d1.doy < crop.crop_gdd_trigger_doy ∧ crop.crop_gdd_trigger_doy ≤ d2.doy)) :
    ((twoDayState crop foo d1 d2 arr).1.penalty = if d1.tmin < -10 then 5 else 0)
    ∧ ((twoDayState crop foo d1 d2 arr).1.cgdd_penalty =
        if d1.tmin < -25 ∧ d1.snow_depth ≤ 0
        then (twoDayState crop foo d1 d2 arr).1.cgdd * (1/10) else 0)
    ∧ ((twoDayState crop foo d1 d2 arr).2.gdd =
        max (winterRawGdd crop d2 - (twoDayState crop foo d1 d2 arr).1.penalty) 0)
    ∧ ((twoDayState crop foo d1 d2 arr).2.cgdd =
        max 0 ((twoDayState crop foo d1 d2 arr).1.cgdd +
          (twoDayState crop foo d1 d2 arr).2.gdd -
          (twoDayState crop foo d1 d2 arr).1.cgdd_penalty))
    ∧ ((twoDayState crop foo d1 d2 arr).2.penalty = if d2.tmin < -10 then 5 else 0)
    ∧ (d1.tmin < -25 → d1.snow_depth ≤ 0 →
        (twoDayState crop foo d1 d2 arr).1.cgdd = 100 →
        (twoDayState crop foo d1 d2 arr).2.cgdd =
          90 + (twoDayState crop foo d1 d2 arr).2.gdd) := by
  have hwb := isWinterB_of_class crop hcls
  have hwc := isWinterC_of_class crop hcls
  have h1 : (twoDayState crop foo d1 d2 arr).1 =
      winterGrainUpdate crop
        (stageB crop
          { foo with etref_30 := (stageAe d1.sdays d1.etref foo.etref_30 arr).1 }
          d1.doy) d1 := by
    show (compute_crop_gdd crop foo d1 arr).1 = _
    rw [compute_crop_gdd_fst, stageA_fst, stageC_winter _ _ _ hwc hcv]
  set s1 := (twoDayState crop foo d1 d2 arr).1 with hs1def
  have hld : s1.lDoy = d1.doy := by
    rw [h1, wgu_lDoy, stageB_lDoy]
  have h2 : (twoDayState crop foo d1 d2 arr).2 =
      winterGrainUpdate crop
        { s1 with
            etref_30 := (stageAe d2.sdays d2.etref s1.etref_30
              (compute_crop_gdd crop foo d1 arr).2).1,
            lDoy := d2.doy } d2 := by
    show (compute_crop_gdd crop s1 d2 (compute_crop_gdd crop foo d1 arr).2).1 = _
    rw [compute_crop_gdd_fst, stageA_fst, stageC_winter _ _ _ hwc hcv]
    rw [stageB_nofire_winter _ _ _ hwb (by
          show ¬ (s1.lDoy < crop.crop_gdd_trigger_doy ∧
            crop.crop_gdd_trigger_doy ≤ d2.doy)
          rw [hld]
          exact hnf)]
  set s2 := (twoDayState crop foo d1 d2 arr).2 with hs2def
  have hP1 : s1.penalty = if d1.tmin < -10 then (5 : ℚ) else 0 := by
    rw [h1]
    exact wgu_penalty _ _ _
  have hP2 : s1.cgdd_penalty =
      if d1.tmin < -25 ∧ d1.snow_depth ≤ 0 then s1.cgdd * (1/10) else 0 := by
    conv_lhs => rw [h1]
    rw [wgu_cgdd_penalty, ← h1]
  have hG : s2.gdd = max (winterRawGdd crop d2 - s1.penalty) 0 := by
    rw [h2, wgu_gdd]
  have hC : s2.cgdd = max 0 (s1.cgdd + s2.gdd - s1.cgdd_penalty) := by
    conv_lhs => rw [h2]
    rw [wgu_cgdd, ← h2]
  have hP5 : s2.penalty = if d2.tmin < -10 then (5 : ℚ) else 0 := by
    rw [h2]
    exact wgu_penalty _ _ _
  have hGnn : 0 ≤ s2.gdd := by
    rw [hG]
    exact le_max_right _ 0
  refine ⟨hP1, hP2, hG, hC, hP5, ?_⟩
  intro hm hs h100
  rw [hC, hP2, if_pos ⟨hm, hs⟩, h100]
  rw [max_eq_right (by linarith)]
  ring

/-- Witness for C5: winter wheat (class 13), day D with cgdd = 100,
tmin = -26, snow_depth = 0, followed by a mild day D+1. -/
theorem C5_winter_penalty_deferred_witness :
    ((twoDayState ⟨13, 1, "WINTER WHEAT", 0, 274⟩ ⟨0, 100, 0, 0, 0, 299, 0, true, true⟩
        ⟨1, 300, 0, 0, -26, -10, 0⟩ ⟨2, 301, 0, 10, 0, 10, 0⟩
        (List.replicate 30 0)).1.penalty =
      if (-26 : ℚ) < -10 then 5 else 0)
    ∧ ((twoDayState ⟨13, 1, "WINTER WHEAT", 0, 274⟩ ⟨0, 100, 0, 0, 0, 299, 0, true, true⟩
        ⟨1, 300, 0, 0, -26, -10, 0⟩ ⟨2, 301, 0, 10, 0, 10, 0⟩
        (List.replicate 30 0)).1.cgdd_penalty =
      if (-26 : ℚ) < -25 ∧ (0 : ℚ) ≤ 0
      then (twoDayState ⟨13, 1, "WINTER WHEAT", 0, 274⟩ ⟨0, 100, 0, 0, 0, 299, 0, true, true⟩
        ⟨1, 300, 0, 0, -26, -10, 0⟩ ⟨2, 301, 0, 10, 0, 10, 0⟩
        (List.replicate 30 0)).1.cgdd * (1/10) else 0)
    ∧ ((twoDayState ⟨13, 1, "WINTER WHEAT", 0, 274⟩ ⟨0, 100, 0, 0, 0, 299, 0, true, true⟩
        ⟨1, 300, 0, 0, -26, -10, 0⟩ ⟨2, 301, 0, 10, 0, 10, 0⟩
        (List.replicate 30 0)).2.gdd =
      max (winterRawGdd ⟨13, 1, "WINTER WHEAT", 0, 274⟩ ⟨2, 301, 0, 10, 0, 10, 0⟩ -
        (twoDayState ⟨13, 1, "WINTER WHEAT", 0, 274⟩ ⟨0, 100, 0, 0, 0, 299, 0, true, true⟩
        ⟨1, 300, 0, 0, -26, -10, 0⟩ ⟨2, 301, 0, 10, 0, 10, 0⟩
        (List.replicate 30 0)).1.penalty) 0)
    ∧ ((twoDayState ⟨13, 1, "WINTER WHEAT", 0, 274⟩ ⟨0, 100, 0, 0, 0, 299, 0, true, true⟩
        ⟨1, 300, 0, 0, -26, -10, 0⟩ ⟨2, 301, 0, 10, 0, 10, 0⟩
        (List.replicate 30 0)).2.cgdd =
      max 0 ((twoDayState ⟨13, 1, "WINTER WHEAT", 0, 274⟩ ⟨0, 100, 0, 0, 0, 299, 0, true, true⟩
        ⟨1, 300, 0, 0, -26, -10, 0⟩ ⟨2, 301, 0, 10, 0, 10, 0⟩
        (List.replicate 30 0)).1.cgdd +
        (twoDayState ⟨13, 1, "WINTER WHEAT", 0, 274⟩ ⟨0, 100, 0, 0, 0, 299, 0, true, true⟩
        ⟨1, 300, 0, 0, -26, -10, 0⟩ ⟨2, 301, 0, 10, 0, 10, 0⟩
        (List.replicate 30 0)).2.gdd -
        (twoDayState ⟨13, 1, "WINTER WHEAT", 0, 274⟩ ⟨0, 100, 0, 0, 0, 299, 0, true, true⟩
        ⟨1, 300, 0, 0, -26, -10, 0⟩ ⟨2, 301, 0, 10, 0, 10, 0⟩
        (List.replicate 30 0)).1.cgdd_penalty))
    ∧ ((twoDayState ⟨13, 1, "WINTER WHEAT", 0, 274⟩ ⟨0, 100, 0, 0, 0, 299, 0, true, true⟩
        ⟨1, 300, 0, 0, -26, -10, 0⟩ ⟨2, 301, 0, 10, 0, 10, 0⟩
        (List.replicate 30 0)).2.penalty =
      if (0 : ℚ) < -10 then 5 else 0)
    ∧ ((-26 : ℚ) < -25 → (0 : ℚ) ≤ 0 →
        (twoDayState ⟨13, 1, "WINTER WHEAT", 0, 274⟩ ⟨0, 100, 0, 0, 0, 299, 0, true, true⟩
        ⟨1, 300, 0, 0, -26, -10, 0⟩ ⟨2, 301, 0, 10, 0, 10, 0⟩
        (List.replicate 30 0)).1.cgdd = 100 →
        (twoDayState ⟨13, 1, "WINTER WHEAT", 0, 274⟩ ⟨0, 100, 0, 0, 0, 299, 0, true, true⟩
        ⟨1, 300, 0, 0, -26, -10, 0⟩ ⟨2, 301, 0, 10, 0, 10, 0⟩
        (List.replicate 30 0)).2.cgdd =
        90 + (twoDayState ⟨13, 1, "WINTER WHEAT", 0, 274⟩ ⟨0, 100, 0, 0, 0, 299, 0, true, true⟩
        ⟨1, 300, 0, 0, -26, -10, 0⟩ ⟨2, 301, 0, 10, 0, 10, 0⟩
        (List.replicate 30 0)).2.gdd) :=
  C5_winter_penalty_deferred ⟨13, 1, "WINTER WHEAT", 0, 274⟩
    ⟨0, 100, 0, 0, 0, 299, 0, true, true⟩ ⟨1, 300, 0, 0, -26, -10, 0⟩
    ⟨2, 301, 0, 10, 0, 10, 0⟩ (List.replicate 30 0) (Or.inl rfl) (by norm_num)
    (by decide)

/-! ## C6 -/

theorem count_true_replicate_false (k : ℕ) : (List.replicate k false).count true = 0 := by
  induction k with
  | zero => rfl
  | succ k ih => simp [List.replicate_succ, List.count_cons, ih]

theorem decide_and_false_left {p q : Prop} [Decidable p] [Decidable q] (h : ¬ p) :
    (decide p && decide q) = false := by
  simp [h]

theorem decide_and_false_right {p q : Prop} [Decidable p] [Decidable q] (h : ¬ q) :
    (decide p && decide q) = false := by
  simp [h]

theorem decide_and_true {p q : Prop} [Decidable p] [Decidable q] (hp : p) (hq : q) :
    (decide p && decide q) = true := by
  simp [hp, hq]

theorem resetCond_std (crop : Crop) (hw : isWinterB crop = false) (l d : ℕ) :
    resetCond crop l d =
      (decide (crop.crop_gdd_trigger_doy + 199 < l) &&
        decide (d < crop.crop_gdd_trigger_doy + 199)) := by
  unfold resetCond
  rw [hw]
  simp

theorem resetCond_win (crop : Crop) (hw : isWinterB crop = true) (l d : ℕ) :
    resetCond crop l d =
      (decide (l < crop.crop_gdd_trigger_doy) &&
        decide (crop.crop_gdd_trigger_doy ≤ d)) := by
  unfold resetCond
  rw [hw]
  simp

theorem stageB_eq_resetCond (crop : Crop) (foo : Foo) (doy : ℕ) :
    stageB crop foo doy =
      if resetCond crop foo.lDoy doy
      then { foo with cgdd := 0, doy_start_cycle := 0, real_start := false,
                      in_season := false, lDoy := doy }
      else { foo with lDoy := doy } := by
  unfold stageB
  by_cases hw : isWinterB crop = true
  · rw [hw]
    simp only [if_true]
    by_cases h : foo.lDoy < crop.crop_gdd_trigger_doy ∧ crop.crop_gdd_trigger_doy ≤ doy
    · rw [if_pos h, if_pos (by rw [resetCond_win crop hw]; exact decide_and_true h.1 h.2)]
    · rw [if_neg h, if_neg (by
        rw [resetCond_win crop hw]
        simp only [Bool.and_eq_true, decide_eq_true_eq]
        exact h)]
  · simp only [Bool.not_eq_true] at hw
    rw [hw]
    simp only [Bool.false_eq_true, if_false]
    by_cases h : crop.crop_gdd_trigger_doy + 199 < foo.lDoy ∧
        doy < crop.crop_gdd_trigger_doy + 199
    · rw [if_pos h, if_pos (by rw [resetCond_std crop hw]; exact decide_and_true h.1 h.2)]
    · rw [if_neg h, if_neg (by
        rw [resetCond_std crop hw]
        simp only [Bool.and_eq_true, decide_eq_true_eq]
        exact h)]

theorem resetSeq_append (crop : Crop) (a b : List ℕ) : ∀ l : ℕ,
    resetSeq crop l (a ++ b) =
      ((resetSeq crop l a).1 ++ (resetSeq crop (resetSeq crop l a).2 b).1,
       (resetSeq crop (resetSeq crop l a).2 b).2) := by
  induction a with
  | nil => intro l; simp [resetSeq]
  | cons d ds ih =>
    intro l
    simp only [List.cons_append, resetSeq, List.append_eq]
    rw [ih d]

theorem resetSeq_std_consec (crop : Crop) (hw : isWinterB crop = false) :
    ∀ (k n : ℕ), resetSeq crop n (List.range' (n + 1) k) =
      (List.replicate k false, n + k) := by
  intro k
  induction k with
  | zero => intro n; simp [resetSeq]
  | succ k ih =>
    intro n
    rw [List.range'_succ]
    simp only [resetSeq]
    rw [ih (n + 1)]
    have hc : resetCond crop n (n + 1) = false := by
      rw [resetCond_std crop hw]
      by_cases h : crop.crop_gdd_trigger_doy + 199 < n
      · exact decide_and_false_right (by omega)
      · exact decide_and_false_left h
    rw [hc]
    simp only [Prod.mk.injEq, List.replicate_succ]
    constructor
    · trivial
    · omega

theorem resetSeq_std_year (crop : Crop) (hw : isWinterB crop = false) (L : ℕ)
    (hL : 1 ≤ L) : ∀ l : ℕ,
    resetSeq crop l (yearDoys L) =
      (resetCond crop l 1 :: List.replicate (L - 1) false, L) := by
  intro l
  obtain ⟨k, rfl⟩ : ∃ k, L = k + 1 := ⟨L - 1, by omega⟩
  unfold yearDoys
  rw [List.range'_succ]
  simp only [resetSeq]
  rw [resetSeq_std_consec crop hw k 1]
  simp only [Prod.mk.injEq, Nat.add_sub_cancel]
  constructor
  · trivial
  · omega

theorem count_cons_replicate_false (c : Bool) (k : ℕ) :
    ((c :: List.replicate k false).count true) = if c = true then 1 else 0 := by
  rw [List.count_cons, count_true_replicate_false]
  cases c <;> simp

theorem resetSeq_std_multi (crop : Crop) (hw : isWinterB crop = false) :
    ∀ (ls : List ℕ) (l : ℕ), ls ≠ [] →
      (∀ L ∈ ls, crop.crop_gdd_trigger_doy + 199 < L) →
      (resetSeq crop l (yearsDoys ls)).1.count true =
        (if crop.crop_gdd_trigger_doy + 199 < l then 1 else 0) + (ls.length - 1) := by
  intro ls
  induction ls with
  | nil => intro l h _; exact absurd rfl h
  | cons L ls ih =>
    intro l _ hall
    have hTL : crop.crop_gdd_trigger_doy + 199 < L := hall L (List.mem_cons_self L ls)
    have hL1 : 1 ≤ L := by omega
    show (resetSeq crop l (yearDoys L ++ yearsDoys ls)).1.count true = _
    rw [resetSeq_append, resetSeq_std_year crop hw L hL1 l]
    show ((resetCond crop l 1 :: List.replicate (L - 1) false) ++
        (resetSeq crop L (yearsDoys ls)).1).count true = _
    rw [List.count_append, count_cons_replicate_false]
    have hcond : resetCond crop l 1 = decide (crop.crop_gdd_trigger_doy + 199 < l) := by
      rw [resetCond_std crop hw]
      have h1 : decide (1 < crop.crop_gdd_trigger_doy + 199) = true := by
        simp only [decide_eq_true_eq]
        omega
      rw [h1, Bool.and_true]
    rw [hcond]
    cases ls with
    | nil =>
      show _ + (resetSeq crop L []).1.count true = _
      simp only [resetSeq, List.count_nil, List.length_cons, List.length_nil]
      by_cases h : crop.crop_gdd_trigger_doy + 199 < l
      · simp [h]
      · simp [h]
    | cons L2 ls2 =>
      rw [ih L (by simp) (fun L' hL' => hall L' (List.mem_cons_of_mem L hL'))]
      rw [if_pos hTL]
      simp only [decide_eq_true_eq, List.length_cons]
      split_ifs <;> omega


theorem count_true_map_decide_eq (t : ℕ) : ∀ (k s : ℕ),
    (((List.range' s k).map (fun d => decide (t = d))).count true) =
      if s ≤ t ∧ t < s + k then 1 else 0 := by
  intro k
  induction k with
  | zero =>
    intro s
    rw [if_neg (show ¬ (s ≤ t ∧ t < s + 0) by omega)]
    rfl
  | succ k ih =>
    intro s
    rw [List.range'_succ]
    simp only [List.map_cons]
    rw [List.count_cons, ih (s + 1)]
    by_cases h : t = s
    · rw [if_neg (show ¬ (s + 1 ≤ t ∧ t < s + 1 + k) by omega),
          if_pos (show s ≤ t ∧ t < s + (k + 1) by omega)]
      simp [h]
    · have hb : decide (t = s) = false := by simp [h]
      simp only [hb]
      have hfb : (if (false == true) = true then 1 else 0) = 0 := rfl
      rw [hfb, Nat.add_zero]
      split_ifs <;> omega

theorem resetSeq_win_consec_map (crop : Crop) (hww : isWinterB crop = true) :
    ∀ (k n : ℕ), resetSeq crop n (List.range' (n + 1) k) =
      ((List.range' (n + 1) k).map
        (fun d => decide (crop.crop_gdd_trigger_doy = d)), n + k) := by
  intro k
  induction k with
  | zero => intro n; simp [resetSeq]
  | succ k ih =>
    intro n
    rw [List.range'_succ]
    simp only [resetSeq, List.map_cons]
    rw [ih (n + 1)]
    have hcond : resetCond crop n (n + 1) =
        decide (crop.crop_gdd_trigger_doy = n + 1) := by
      rw [resetCond_win crop hww]
      by_cases h : crop.crop_gdd_trigger_doy = n + 1
      · rw [decide_and_true (by omega) (by omega)]
        simp [h]
      · rcases Nat.lt_or_ge n crop.crop_gdd_trigger_doy with h1 | h1
        · rw [decide_and_false_right (by omega)]
          simp [h]
        · rw [decide_and_false_left (by omega)]
          simp [h]
    rw [hcond]
    simp only [Prod.mk.injEq]
    constructor
    · trivial
    · omega

theorem resetSeq_win_year (crop : Crop) (hww : isWinterB crop = true)
    (h2 : 2 ≤ crop.crop_gdd_trigger_doy) (L : ℕ) (hL : 1 ≤ L) : ∀ l : ℕ,
    (resetSeq crop l (yearDoys L)).1.count true =
      (if crop.crop_gdd_trigger_doy ≤ L then 1 else 0) ∧
    (resetSeq crop l (yearDoys L)).2 = L := by
  intro l
  obtain ⟨k, rfl⟩ : ∃ k, L = k + 1 := ⟨L - 1, by omega⟩
  unfold yearDoys
  rw [List.range'_succ]
  simp only [resetSeq]
  rw [resetSeq_win_consec_map crop hww k 1]
  have hc1 : resetCond crop l 1 = false := by
    rw [resetCond_win crop hww]
    exact decide_and_false_right (by omega)
  rw [hc1]
  constructor
  · show ((false :: (List.range' (1 + 1) k).map
        (fun d => decide (crop.crop_gdd_trigger_doy = d))).count true) = _
    rw [List.count_cons, count_true_map_decide_eq]
    have hfb : (if (false == true) = true then 1 else 0) = 0 := rfl
    rw [hfb, Nat.add_zero]
    split_ifs <;> omega
  · show (1 : ℕ) + k = k + 1
    omega

theorem resetSeq_win_multi (crop : Crop) (hww : isWinterB crop = true)
    (h2 : 2 ≤ crop.crop_gdd_trigger_doy) :
    ∀ (ls : List ℕ) (l : ℕ), (∀ L ∈ ls, crop.crop_gdd_trigger_doy ≤ L) →
      (resetSeq crop l (yearsDoys ls)).1.count true = ls.length := by
  intro ls
  induction ls with
  | nil => intro l _; rfl
  | cons L ls ih =>
    intro l hall
    have hTL : crop.crop_gdd_trigger_doy ≤ L := hall L (List.mem_cons_self L ls)
    have hL1 : 1 ≤ L := by omega
    show (resetSeq crop l (yearDoys L ++ yearsDoys ls)).1.count true = _
    rw [resetSeq_append]
    show ((resetSeq crop l (yearDoys L)).1 ++
        (resetSeq crop (resetSeq crop l (yearDoys L)).2 (yearsDoys ls)).1).count true = _
    rw [List.count_append]
    have hy := resetSeq_win_year crop hww h2 L hL1 l
    rw [hy.1, hy.2, ih L (fun L' h' => hall L' (List.mem_cons_of_mem L h'))]
    rw [if_pos hTL]
    simp only [List.length_cons]
    omega

set_option maxRecDepth 8000 in
/-- C6 counterexample: a standard crop with trigger DOY 166 (so
trigger+199 = 365) never satisfies the reset condition over a two-year run
of 365-day years (day-of-year never exceeds 365), so zero resets occur
although one calendar-year boundary is crossed. -/
theorem C6_counterexample :
    countResets ⟨7, 7, "CORN", 18, 166⟩ 0 [365, 365] = 0 ∧
    ([365, 365] : List ℕ).length - 1 = 1 := by
  constructor
  · decide
  · rfl

/-- C6 (amended): season resets fire exactly on the days satisfying the
stage-B reset condition (first conjunct), and the per-year count is as
follows.  For a standard crop whose trigger satisfies
trigger+199 < every year length, starting with lDoy at most trigger+199, a
multi-year run of consecutive calendar years fires exactly one reset per
calendar-year boundary (count = number of years - 1).  For a winter crop
with 2 <= trigger <= every year length, exactly one reset fires per
calendar year (count = number of years, on the trigger day).  Outside
these parameter ranges (e.g. a standard crop with trigger+199 >= 365) the
per-boundary reset is not guaranteed. -/
theorem C6_reset_per_year :
    (∀ (crop : Crop) (foo : Foo) (doy : ℕ),
      stageB crop foo doy =
        if resetCond crop foo.lDoy doy
        then { foo with cgdd := 0, doy_start_cycle := 0, real_start := false,
                        in_season := false, lDoy := doy }
        else { foo with lDoy := doy })
    ∧ (∀ (crop : Crop) (ls : List ℕ) (l : ℕ), isWinterB crop = false → ls ≠ [] →
        (∀ L ∈ ls, crop.crop_gdd_trigger_doy + 199 < L) →
        l ≤ crop.crop_gdd_trigger_doy + 199 →
        countResets crop l ls = ls.length - 1)
    ∧ (∀ (crop : Crop) (ls : List ℕ) (l : ℕ), isWinterB crop = true →
        2 ≤ crop.crop_gdd_trigger_doy →
        (∀ L ∈ ls, crop.crop_gdd_trigger_doy ≤ L) →
        countResets crop l ls = ls.length) := by
  refine ⟨stageB_eq_resetCond, ?_, ?_⟩
  · intro crop ls l hw hne hall hl
    unfold countResets
    rw [resetSeq_std_multi crop hw ls l hne hall]
    rw [if_neg (show ¬ (crop.crop_gdd_trigger_doy + 199 < l) by omega)]
    omega
  · intro crop ls l hww h2 hall
    unfold countResets
    exact resetSeq_win_multi crop hww h2 ls l hall

/-- Witness for C6: a standard crop with trigger DOY 1 over two 365-day
years starting from lDoy = 0 fires exactly one reset (at the year
boundary). -/
theorem C6_reset_per_year_witness :
    countResets ⟨7, 7, "CORN", 18, 1⟩ 0 [365, 365] = ([365, 365] : List ℕ).length - 1 :=
  C6_reset_per_year.2.1 ⟨7, 7, "CORN", 18, 1⟩ [365, 365] 0 (by decide) (by decide)
    (by decide) (by decide)

/-! ## C7 -/

/-- C7: the valid-date mask that crop_day_loop builds by combining the two
whole-array comparisons with the boolean and operator is not the
elementwise conjunction of the comparisons: for every date series with
more than one entry, evaluating it is an error (the truth value of a
multi-element array is ambiguous), so the per-day loop cannot select days
as the window filter intends. -/
theorem C7_date_mask_error (dates : List ℤ) (start_dt end_dt : ℤ)
    (h : 1 < dates.length) :
    (∃ msg, dateMask dates start_dt end_dt = Except.error msg) ∧
    dateMask dates start_dt end_dt ≠
      Except.ok (elementwiseMask dates start_dt end_dt) := by
  obtain ⟨a, rest, rfl⟩ : ∃ a rest, dates = a :: rest := by
    cases dates with
    | nil => simp at h
    | cons a rest => exact ⟨a, rest, rfl⟩
  obtain ⟨b, rest2, rfl⟩ : ∃ b rest2, rest = b :: rest2 := by
    cases rest with
    | nil => simp at h
    | cons b r2 => exact ⟨b, r2, rfl⟩
  have herr : dateMask (a :: b :: rest2) start_dt end_dt =
      Except.error "ValueError: The truth value of an array with more than one element is ambiguous." := rfl
  refine ⟨⟨_, herr⟩, ?_⟩
  rw [herr]
  intro hcontra
  exact Except.noConfusion hcontra

/-- Witness for C7 on the two-element date series [0, 1] with window
[0, 1]. -/
theorem C7_date_mask_error_witness :
    (∃ msg, dateMask [0, 1] 0 1 = Except.error msg) ∧
    dateMask [0, 1] 0 1 ≠ Except.ok (elementwiseMask [0, 1] 0 1) :=
  C7_date_mask_error [0, 1] 0 1 (by decide)

/-! ## C8 -/

/-- C8 (code bug): on any record containing snowfall, the snow-depth
loop's first iteration executes snow_accum += snow * 0.5 with snow_accum
never having been assigned, so the loop raises instead of starting the
accumulator at the spec's stated initial value 0.  Evaluated at a one-day
record with snowfall 2, existing snow_depth 5 and tmax 1. -/
theorem C8_snow_accum_uninitialized :
    process_climate_snow [⟨2, 5, 1⟩] =
      Except.error "UnboundLocalError: local variable snow_accum referenced before assignment" := by
  rfl

/-! ## C9 -/

theorem dup_head_table (f : ℕ → ℚ) (n : ℕ) (hn : 1 ≤ n) :
    ((((List.range' 1 n).map f).headI :: (List.range' 1 n).map f).length = n + 1) ∧
    ((((List.range' 1 n).map f).headI :: (List.range' 1 n).map f).getD 0 0 = f 1) ∧
    (∀ d, 1 ≤ d → d ≤ n →
      (((List.range' 1 n).map f).headI :: (List.range' 1 n).map f).getD d 0 = f d) := by
  obtain ⟨k, rfl⟩ : ∃ k, n = k + 1 := ⟨n - 1, by omega⟩
  refine ⟨?_, ?_, ?_⟩
  · simp
  · rw [List.getD_cons_zero, List.range'_succ]
    simp
  · intro d hd1 hdn
    obtain ⟨j, rfl⟩ : ∃ j, d = j + 1 := ⟨d - 1, by omega⟩
    rw [List.getD_cons_succ]
    have hj : j < ((List.range' 1 (k + 1)).map f).length := by
      simp
      omega
    rw [List.getD_eq_getElem?_getD, List.getElem?_eq_getElem hj]
    simp only [Option.getD_some]
    rw [List.getElem_map]
    congr 1
    rw [List.getElem_range'_1]
    omega

set_option maxRecDepth 4000 in
/-- C9 counterexample: a record covering a leap year (day-of-year values
1..366, here all-zero temperatures in year 2000) produces a long-term
normal table with 367 entries (indices 0..366), not the claimed 0..365
with 365 computed values. -/
theorem C9_counterexample :
    (main_t30_lt ((List.range' 1 366).map
      (fun d => (⟨2000, d, 0, 0⟩ : ClimRow)))).length = 367 ∧ (367 ≠ 366) := by
  constructor
  · have h : uniqueDoys ((List.range' 1 366).map
        (fun d => (⟨2000, d, 0, 0⟩ : ClimRow))) = List.range' 1 366 := by
      decide
    simp only [main_t30_lt]
    rw [h]
    simp
  · decide

/-- C9 (amended): for a record whose distinct day-of-year values are
exactly 1..365 (no leap day), the two long-term normal tables have 366
entries indexed 0..365 (365 computed values plus index 0 duplicated from
day 1), T30LT[doy] is the across-years mean by day-of-year of the trailing
30-day mean of tmean (window limited by availability at record start,
minimum 1), and CGDD0LT[doy] is the across-years mean by day-of-year of
the per-calendar-year cumulative base-0 GDD.  A record containing a leap
day instead yields 367 entries. -/
theorem C9_longterm_normals (rows : List ClimRow)
    (h : uniqueDoys rows = List.range' 1 365) :
    ((main_t30_lt rows).length = 366) ∧
    ((main_t30_lt rows).getD 0 0 = doyMean (t30Pairs rows) 1) ∧
    (∀ d, 1 ≤ d → d ≤ 365 →
      (main_t30_lt rows).getD d 0 = doyMean (t30Pairs rows) d) ∧
    ((main_cgdd_0_lt rows).length = 366) ∧
    ((main_cgdd_0_lt rows).getD 0 0 = doyMean (cgddPairs rows) 1) ∧
    (∀ d, 1 ≤ d → d ≤ 365 →
      (main_cgdd_0_lt rows).getD d 0 = doyMean (cgddPairs rows) d) := by
  have h1 := dup_head_table (doyMean (t30Pairs rows)) 365 (by omega)
  have h2 := dup_head_table (doyMean (cgddPairs rows)) 365 (by omega)
  simp only [main_t30_lt, main_cgdd_0_lt]
  rw [h]
  exact ⟨h1.1, h1.2.1, h1.2.2, h2.1, h2.2.1, h2.2.2⟩

set_option maxRecDepth 4000 in
/-- Witness for C9 at a concrete one-year record (a non-leap 365-day year,
all-zero temperatures): table length and the entry for day-of-year 17. -/
theorem C9_longterm_normals_witness :
    ((main_t30_lt ((List.range' 1 365).map
        (fun d => (⟨2001, d, 0, 0⟩ : ClimRow)))).length = 366) ∧
    ((main_t30_lt ((List.range' 1 365).map
        (fun d => (⟨2001, d, 0, 0⟩ : ClimRow)))).getD 17 0 =
      doyMean (t30Pairs ((List.range' 1 365).map
        (fun d => (⟨2001, d, 0, 0⟩ : ClimRow)))) 17) :=
  ⟨(C9_longterm_normals ((List.range' 1 365).map
      (fun d => (⟨2001, d, 0, 0⟩ : ClimRow))) (by decide)).1,
   (C9_longterm_normals ((List.range' 1 365).map
      (fun d => (⟨2001, d, 0, 0⟩ : ClimRow))) (by decide)).2.2.1 17
      (by omega) (by omega)⟩

/-! ## C10 -/

/-- C10: the daily loop computes rh_min as min(es(tdew)/es(tmax)*100, 100)
from the dewpoint and the original maximum temperature, except that when
either input is below the -90 sentinel the fallback rh_min = 30.0 is used;
the computation is total (no error is raised in either case). -/
theorem C10_rh_min (es : ℚ → ℚ) (d : DayWx) :
    ((d.tdew < -90 ∨ d.tmax_orig < -90) → (set_rh_min es d).rh_min = 30) ∧
    (¬ (d.tdew < -90 ∨ d.tmax_orig < -90) →
      (set_rh_min es d).rh_min = min (es d.tdew / es d.tmax_orig * 100) 100) := by
  constructor
  · intro h
    unfold set_rh_min
    rw [if_pos h]
  · intro h
    unfold set_rh_min
    rw [if_neg h]

/-- Witness for C10: a sentinel dewpoint of -95 forces the fallback 30. -/
theorem C10_rh_min_witness :
    (set_rh_min esLin ⟨-95, 20, 0⟩).rh_min = 30 :=
  (C10_rh_min esLin ⟨-95, 20, 0⟩).1 (Or.inl (by norm_num))
